import Mathlib

/-!
Verification of the real-time-strategy-game repository: a shallow embedding
of the grid/pathfinding module (map.py), the production interface
(buildings/buildings.py), the mission module (missions/missions.py), the
save/load module (persistency/save_handling.py) and the utility function
get_enemies (utils/functions.py), together with theorems settling the
specification claims about them.

Conventions used throughout:
* Python ints are embedded as `Int` (or `Nat` where the source value is
  provably non-negative); Python `//` (floor division) is `Int.fdiv`.
* Python floats appearing in this code take only values whose comparisons
  are exact (0, 1, 1.4, booleans coerced to 0/1, `inf`, and numbers of the
  form t + sqrt s for natural t, s); they are embedded as exact fractions
  (`PyFloat`), as `Option PyFloat` with `none` for `inf`, or as the
  symbolic pair (t, s) with an exact decision procedure for ordering
  (proved correct against `Real.sqrt` below).
* Python dicts are embedded as association lists or as functions,
  Python sets as duplicate-free lists; string keys drawn from a fixed
  finite alphabet are embedded as `Nat` codes or as enumerated types.
-/

set_option maxRecDepth 100000

/-! ## map.py — grid arithmetic (GridHandler) -/

/-- TILE_WIDTH constant from map.py. -/
def TILE_WIDTH : Int := 60

/-- TILE_HEIGHT constant from map.py. -/
def TILE_HEIGHT : Int := 60

/-- A map-grid coordinate (Python tuple of two ints). -/
abbrev GridPosition : Type := Int × Int

/-- Embeds `GridHandler.position_to_grid`: `(x // TILE_WIDTH, y // TILE_HEIGHT)`. -/
def position_to_grid (x y : Int) : GridPosition :=
  (Int.fdiv x TILE_WIDTH, Int.fdiv y TILE_HEIGHT)

/-- Embeds `GridHandler.grid_to_position`:
`(grid[0] * TILE_WIDTH + TILE_WIDTH // 2, grid[1] * TILE_HEIGHT + TILE_HEIGHT // 2)`. -/
def grid_to_position (g : GridPosition) : Int × Int :=
  (g.1 * TILE_WIDTH + Int.fdiv TILE_WIDTH 2,
   g.2 * TILE_HEIGHT + Int.fdiv TILE_HEIGHT 2)

/-- Embeds `GridHandler.normalize_position`: grid-normalise a pixel position
(`int()` coercion is the identity on embedded integers). -/
def normalize_position (x y : Int) : Int × Int :=
  grid_to_position (position_to_grid x y)

/-- Embeds `GridHandler.adjacent_offsets` from map.py, in source order. -/
def adjacent_offsets : List (Int × Int) :=
  [(-1, -1), (-1, 0), (-1, 1), (0, 1), (0, -1), (1, -1), (1, 0), (1, 1)]

/-- Embeds `GridHandler.adjacent_grids`: the eight offsets applied to the grid of
position (x, y). -/
def adjacent_grids (x y : Int) : List GridPosition :=
  adjacent_offsets.map
    (fun p => ((position_to_grid x y).1 + p.1, (position_to_grid x y).2 + p.2))

/-- Embeds `MapNode.is_diagonal_to_other`:
`self.grid[0] != other[0] and self.grid[1] != other[1]`. -/
def is_diagonal_to_other (g other : GridPosition) : Bool :=
  decide (g.1 ≠ other.1 ∧ g.2 ≠ other.2)

/-- An exact Python float value, kept as an integer fraction num/den with
positive denominator (never normalised; all floats handled by this code —
0, 1, 1.4, bools coerced to numbers — are exactly representable). -/
structure PyFloat where
  num : Int
  den : Int

/-- The rational value a `PyFloat` stands for. -/
def pf_val (x : PyFloat) : Rat := (x.num : Rat) / (x.den : Rat)

/-- Strict `<` of the represented values (denominators are positive). -/
def pf_lt (x y : PyFloat) : Bool := decide (x.num * y.den < y.num * x.den)

/-- Addition of represented values. -/
def pf_add (x y : PyFloat) : PyFloat :=
  { num := x.num * y.den + y.num * x.den, den := x.den * y.den }

/-- The cost that `Map.calculate_distances_between_nodes` stores in
`node.costs[grid]`: `1 if node.is_diagonal_to_other(grid) else 1.4`
(1.4 denotes the value 14/10). -/
def node_cost (node grid : GridPosition) : PyFloat :=
  if is_diagonal_to_other node grid then { num := 1, den := 1 }
  else { num := 14, den := 10 }

/-- The Map object: construction parameters plus the per-node occupant
state (`MapNode._unit_id` / `MapNode._building_id`, indexed by grid). -/
structure PyMap where
  width : Int
  height : Int
  grid_width : Int
  grid_height : Int
  unit_at : GridPosition → Option Nat
  building_at : GridPosition → Option Nat

/-- Embeds `Map.__init__`: `self.rows = self.height // self.grid_height`. -/
def PyMap.rows (m : PyMap) : Int := Int.fdiv m.height m.grid_height

/-- Embeds `Map.__init__`: `self.columns = self.width // self.grid_width`. -/
def PyMap.columns (m : PyMap) : Int := Int.fdiv m.width m.grid_width

/-- Embeds `Map.in_bounds`: keep the grids p with
`0 <= p[0] < columns and 0 <= p[1] < rows`. -/
def PyMap.in_bounds (m : PyMap) (grids : List GridPosition) : List GridPosition :=
  grids.filter
    (fun p => decide (0 ≤ p.1 ∧ p.1 < m.columns ∧ 0 ≤ p.2 ∧ p.2 < m.rows))

/-- Embeds `Map.on_map_area`: `0 <= x < self.width and 0 <= y < self.height`. -/
def PyMap.on_map_area (m : PyMap) (x y : Int) : Bool :=
  decide (0 ≤ x ∧ x < m.width ∧ 0 ≤ y ∧ y < m.height)

/-- Embeds `MapNode.walkable`:
`self._unit_id is None and self._building_id is None`. -/
def PyMap.walkable (m : PyMap) (g : GridPosition) : Bool :=
  (m.unit_at g).isNone && (m.building_at g).isNone

/-- Embeds `Map.adjacent_nodes`: the in-bounds grids adjacent to position (x, y)
(nodes are identified with their grid coordinates). -/
def PyMap.adjacent_nodes (m : PyMap) (x y : Int) : List GridPosition :=
  m.in_bounds (adjacent_grids x y)

/-- Embeds `Map.walkable_adjacent`: adjacent nodes that are walkable. -/
def PyMap.walkable_adjacent (m : PyMap) (x y : Int) : List GridPosition :=
  (m.adjacent_nodes x y).filter m.walkable

/-! ## utils/functions.py — get_enemies -/

/-- The `while index > 2` halving loop of `get_enemies`; `index >> 1` on a
non-negative int is floor division by 2.  The fuel argument only bounds the
recursion: starting from 8589934592 = 2^33 the loop body can run at most 32
times, so fuel 40 is never exhausted. -/
def get_enemies_loop : Nat → Int → Int → Int
  | 0, index, _ => index
  | fuel + 1, index, war =>
    if 2 < index then
      if war < index then get_enemies_loop fuel (Int.fdiv index 2) war else index
    else index

/-- Embeds `get_enemies(war)` from utils/functions.py: halve a probe starting at
the literal 8589934592 until it stops, then return
`(index, war - index)`. -/
def get_enemies (war : Int) : Int × Int :=
  (get_enemies_loop 40 8589934592 war, war - get_enemies_loop 40 8589934592 war)

/-! ## missions/missions.py — Mission -/

/-- Mission state: the active participant id set (a Python set, embedded
as a duplicate-free list), the two defaultdict(int) point tables
(embedded as total functions with default 0), and the end-of-mission
flags.  The winner is recorded by player id: `self.game.players[pid]`
is the Player object registered under that id. -/
structure Mission where
  players : List Nat
  victory_points : Nat → Int
  required_victory_points : Nat → Int
  ended : Bool
  winner : Option Nat

/-- Embeds `Mission.end_mission`: sets the ended flag and the winner
(`notify_player` only touches the game view, not the mission state). -/
def end_mission (m : Mission) (w : Nat) : Mission :=
  { m with ended := true, winner := some w }

/-- Embeds `Mission.check_for_last_survivor`: if exactly one participant remains,
`self.players.pop()` removes that sole id from the set and the mission ends
with the corresponding player as winner. -/
def check_for_last_survivor (m : Mission) : Mission :=
  match m.players with
  | [p] => end_mission { m with players := [] } p
  | _ => m

/-- Python `set.discard`: remove the element if present. -/
def set_discard (s : List Nat) (x : Nat) : List Nat :=
  s.filter (fun y => y ≠ x)

/-- Embeds `Mission.eliminate_player`: `player.kill()` (which affects only the
player's own assets, not the mission state), discard the player's id from
the active set, then check for a last survivor. -/
def eliminate_player (m : Mission) (pid : Nat) : Mission :=
  check_for_last_survivor { m with players := set_discard m.players pid }

/-- Embeds `Mission.check_victory_points`: the chained comparison
`points >= self.required_victory_points[player_id] > 0`. -/
def check_victory_points (m : Mission) (pid : Nat) : Mission :=
  if m.required_victory_points pid ≤ m.victory_points pid ∧
      0 < m.required_victory_points pid then
    end_mission m pid
  else m

/-- Embeds `Mission.add_victory_points`: increment the player's counter in the
defaultdict, then check it against the required threshold. -/
def add_victory_points (m : Mission) (pid : Nat) (points : Int) : Mission :=
  check_victory_points
    { m with
      victory_points :=
        fun q => if q = pid then m.victory_points pid + points
                 else m.victory_points q }
    pid

/-! ## buildings/buildings.py — IProducer -/

/-- Python class objects appearing in the production subsystem: `tank` is a
producible PlayerEntity subclass, `metaclass` is the metaclass of every
class object (`type`).  `start_production` receives class objects (its
parameter is annotated `Type[PlayerEntity]` and the production queue holds
the very values later fed back to it). -/
inductive PyClass : Type where
  | tank : PyClass
  | metaclass : PyClass
deriving DecidableEq

/-- Python `product.__class__` for a class object: its metaclass. -/
def class_of : PyClass → PyClass := fun _ => PyClass.metaclass

/-- The class attribute `production_per_frame` of a producible class
(the claim's scenario fixes it to 25 for the product type). -/
def class_production_per_frame : PyClass → Rat
  | PyClass.tank => 25
  | PyClass.metaclass => 0

/-- IProducer state; `production_queue` is a deque whose head is the left
end (`appendleft` pushes at the head, `pop` removes the last element). -/
structure IProducer where
  produced_objects : List PyClass
  production_queue : List PyClass
  production_progress : Rat
  production_per_frame : Rat
  is_producing : Bool
deriving DecidableEq

/-- Embeds `IProducer.set_production_progress_and_speed`. -/
def set_production_progress_and_speed (s : IProducer) (product : PyClass) :
    IProducer :=
  { s with production_progress := 0,
           production_per_frame := class_production_per_frame product }

/-- Embeds `IProducer.start_production`: returns unchanged when
`product.__class__ not in self.produced_objects`; otherwise pushes the
product onto the front of the queue and resets the bookkeeping. -/
def start_production (s : IProducer) (product : PyClass) : IProducer :=
  if class_of product ∈ s.produced_objects then
    set_production_progress_and_speed
      { s with production_queue := product :: s.production_queue } product
  else s

/-- Embeds `IProducer._toggle_production`. -/
def toggle_production (s : IProducer) : IProducer :=
  { s with is_producing := !s.is_producing }

/-- Embeds `IProducer.finish_production`: toggle production, reset progress,
remove the last element of the queue. -/
def finish_production (s : IProducer) : IProducer :=
  let s1 := toggle_production s
  { s1 with production_progress := 0,
            production_queue := s1.production_queue.dropLast }

/-- Embeds `IProducer.update_production`: when producing, advance progress and
finish at 100; when idle with a non-empty queue, start producing the
queue's tail element. -/
def update_production (s : IProducer) : IProducer :=
  if s.is_producing then
    let s1 := { s with production_progress :=
                  s.production_progress + s.production_per_frame }
    if 100 ≤ s1.production_progress then finish_production s1 else s1
  else
    match s.production_queue.getLast? with
    | some product => start_production s product
    | none => s

/-! ## persistency/save_handling.py — SaveManager -/

/-- Values stored in a shelve record: either a single game object or the
list materialised by a comprehension over a sprite collection.  `V` is the
type of opaque game objects. -/
inductive SaveValue (V : Type) : Type where
  | single : V → SaveValue V
  | listed : List V → SaveValue V
deriving DecidableEq

/-- The game state fields read by `SaveManager.save_game`. -/
structure PyGame (V : Type) where
  map : V
  mission : V
  factions : List V
  players : List V
  units : List V
  buildings : List V
  permanent_units_groups : V
  fog_of_war : V
  mini_map : V

/-- A shelve record: a string-keyed persistent dict; keys are embedded as
natural-number codes. -/
def PyShelf (V : Type) : Type := Nat → Option (SaveValue V)

/-- The nine fixed string keys of save_game, as codes:
map = 0, mission = 1, factions = 2, players = 3, units = 4, buildings = 5,
permanent_units_groups = 6, fog_of_war = 7, mini_map = 8. -/
def nine_keys : List Nat := [0, 1, 2, 3, 4, 5, 6, 7, 8]

/-- Shelve key assignment `file[key] = value`. -/
def shelf_set {V : Type} (sh : PyShelf V) (k : Nat) (v : SaveValue V) : PyShelf V :=
  fun q => if q = k then some v else sh q

/-- A fresh (empty) shelve record. -/
def empty_shelf {V : Type} : PyShelf V := fun _ => none

/-- The body of the `with shelve.open(...) as file` block of
`SaveManager.save_game`: the nine assignments in source order. -/
def write_save_record {V : Type} (g : PyGame V) (sh : PyShelf V) : PyShelf V :=
  shelf_set (shelf_set (shelf_set (shelf_set (shelf_set (shelf_set (shelf_set
    (shelf_set (shelf_set sh
      0 (SaveValue.single g.map))
      1 (SaveValue.single g.mission))
      2 (SaveValue.listed g.factions))
      3 (SaveValue.listed g.players))
      4 (SaveValue.listed g.units))
      5 (SaveValue.listed g.buildings))
      6 (SaveValue.single g.permanent_units_groups))
      7 (SaveValue.single g.fog_of_war))
      8 (SaveValue.single g.mini_map)

/-- Embeds `SaveManager.save_game`: `shelve.open` loads the existing record at the
slot's file path (or creates an empty one), the block writes the nine keys,
and the result is stored back at that path.  Save-file paths are embedded
as `Nat` codes. -/
def save_game {V : Type} (store : Nat → Option (PyShelf V)) (slot : Nat)
    (g : PyGame V) : Nat → Option (PyShelf V) :=
  fun q =>
    if q = slot then
      some (write_save_record g (match store slot with
        | some sh => sh
        | none => empty_shelf))
    else store q

/-- Python exceptions relevant to `SaveManager.delete_saved_game`. -/
inductive PyError : Type where
  | keyError : PyError
  | fileNotFoundError : PyError
deriving DecidableEq

/-- SaveManager state for deletion: the `saved_games` dict (name code ↦
path code) and the set of paths present on disk. -/
structure SaveManager where
  saved_games : List (Nat × Nat)
  disk : List Nat

/-- Embeds `os.remove(path)`: removes the file or raises FileNotFoundError. -/
def os_remove (path : Nat) (st : SaveManager) : Except PyError SaveManager :=
  if path ∈ st.disk then
    Except.ok { st with disk := st.disk.filter (fun q => q ≠ path) }
  else Except.error PyError.fileNotFoundError

/-- Python `del d[k]` after a successful lookup of `k`. -/
def dict_del (d : List (Nat × Nat)) (k : Nat) : List (Nat × Nat) :=
  d.filter (fun e => e.1 ≠ k)

/-- The `try` body of `SaveManager.delete_saved_game`:
`os.remove(self.saved_games[save_name])` (a missing dict key raises
KeyError before `os.remove` runs) then `del self.saved_games[save_name]`. -/
def delete_saved_game_try (st : SaveManager) (name : Nat) :
    Except PyError SaveManager :=
  match st.saved_games.lookup name with
  | none => Except.error PyError.keyError
  | some path =>
    match os_remove path st with
    | Except.error e => Except.error e
    | Except.ok st1 =>
      Except.ok { st1 with saved_games := dict_del st1.saved_games name }

/-- Embeds `SaveManager.delete_saved_game`: the `except FileNotFoundError: pass`
clause swallows only that exception; no state mutation has happened when
`os.remove` raises, so the manager is returned unchanged. -/
def delete_saved_game (st : SaveManager) (name : Nat) :
    Except PyError SaveManager :=
  match delete_saved_game_try st name with
  | Except.error PyError.fileNotFoundError => Except.ok st
  | r => r

/-! ## map.py — Pathfinder

`find_path` compares Python floats of the form `t + hypot(dx, dy)` with
`t ∈ {0, 1}` (a bool coerced to a number) and `dx, dy` small ints.  The
priority is embedded symbolically as the pair `(t, dx^2 + dy^2)` standing
for the real number `t + Real.sqrt (dx^2 + dy^2)`, with an exact integer
decision procedure for the strict order, proved correct against `Real.sqrt`
in `sqrt_add_lt_iff`.  (For the magnitudes arising on the maps considered
here the exact real order coincides with the IEEE-double order computed by
Python: the smallest nonzero gap between two comparand values is far above
the rounding error of a correctly-rounded `hypot`.) -/

/-- Decide `t1 + sqrt s1 < t2 + sqrt s2` by integer arithmetic. -/
def sqrt_add_lt (t1 s1 t2 s2 : Nat) : Bool :=
  if 0 ≤ (t2 : Int) - (t1 : Int) then
    if (s1 : Int) - (s2 : Int) - ((t2 : Int) - (t1 : Int)) ^ 2 < 0 then true
    else
      decide (((s1 : Int) - (s2 : Int) - ((t2 : Int) - (t1 : Int)) ^ 2) ^ 2 <
        4 * ((t2 : Int) - (t1 : Int)) ^ 2 * (s2 : Int))
  else
    if (s2 : Int) - (s1 : Int) - ((t1 : Int) - (t2 : Int)) ^ 2 ≤ 0 then false
    else
      decide (4 * ((t1 : Int) - (t2 : Int)) ^ 2 * (s1 : Int) <
        ((s2 : Int) - (s1 : Int) - ((t1 : Int) - (t2 : Int)) ^ 2) ^ 2)

/-- The squared argument of `Pathfinder.heuristic(start, end)`:
`hypot(start[0] - end[0], start[1] - end[1])` is the square root of this
natural number. -/
def heuristic_sq (a b : GridPosition) : Nat :=
  ((a.1 - b.1) ^ 2 + (a.2 - b.2) ^ 2).toNat

/-- A priority-queue entry `(priority, item)` with the priority in
symbolic `t + sqrt s` form. -/
abbrev PQEntry : Type := (Nat × Nat) × GridPosition

/-- Strict order on symbolic priorities. -/
def prio_lt (p q : Nat × Nat) : Bool := sqrt_add_lt p.1 p.2 q.1 q.2

/-- Python tuple order on grid positions (int pairs). -/
def grid_lt (a b : GridPosition) : Bool :=
  decide (a.1 < b.1 ∨ (a.1 = b.1 ∧ a.2 < b.2))

/-- The strict order heapq uses on `(priority, item)` tuples: float order
on priorities, tuple order on items for equal priorities. -/
def entry_lt (e f : PQEntry) : Bool :=
  prio_lt e.1 f.1 ||
    (!prio_lt e.1 f.1 && !prio_lt f.1 e.1 && grid_lt e.2 f.2)

/-- Select the minimum entry of `e :: l` under `entry_lt`, returning it
together with the remaining entries.  All entries in the queue are
distinct (each grid is pushed at most once thanks to the `_contains`
guard), so this is exactly the element `heapq.heappop` removes. -/
def select_min (e : PQEntry) : List PQEntry → PQEntry × List PQEntry
  | [] => (e, [])
  | f :: rest =>
    if entry_lt f e then
      let r := select_min f rest
      (r.1, e :: r.2)
    else
      let r := select_min e rest
      (r.1, f :: r.2)

/-- Embeds `PriorityQueue.get` preceded by the `while unexplored:` emptiness
test: pop the minimal `(priority, item)` entry, or report emptiness. -/
def heap_pop : List PQEntry → Option (PQEntry × List PQEntry)
  | [] => none
  | e :: rest => some (select_min e rest)

/-- A value of the `cost_so_far` defaultdict: the int 0 stored at `start`,
a Python bool stored by `cost_so_far[adj] = total`, or the default
`inf`. -/
inductive CostVal : Type where
  | intV : Int → CostVal
  | boolV : Bool → CostVal
  | infV : CostVal
deriving DecidableEq

/-- The numeric value of a `CostVal` (`False == 0`, `True == 1` in
Python); `none` stands for `inf`. -/
def cost_val_num : CostVal → Option PyFloat
  | CostVal.intV n => some { num := n, den := 1 }
  | CostVal.boolV b => some { num := if b then 1 else 0, den := 1 }
  | CostVal.infV => none

/-- Strict `<` on Python numbers extended with `inf`. -/
def num_lt : Option PyFloat → Option PyFloat → Bool
  | some a, some b => pf_lt a b
  | some _, none => true
  | none, _ => false

/-- Addition on Python numbers extended with `inf`. -/
def num_add : Option PyFloat → Option PyFloat → Option PyFloat
  | some a, some b => some (pf_add a b)
  | _, _ => none

/-- The `cost_so_far` defaultdict.  Its keys are of two disjoint Python
kinds that can never collide in one dict: grid tuples (written only by
`cost_so_far[start] = 0`, read by `cost_so_far[current]` and
`cost_so_far[adj.grid]`) and MapNode objects (written by
`cost_so_far[adj] = total`, read by `cost_so_far[adj]`); a MapNode is
identified here by its grid.  Missing keys yield the default `inf`. -/
structure CostMap where
  grid_keys : List (GridPosition × CostVal)
  node_keys : List (GridPosition × CostVal)

/-- Lookup of a grid-tuple key. -/
def cost_grid (c : CostMap) (g : GridPosition) : CostVal :=
  (c.grid_keys.lookup g).getD CostVal.infV

/-- Lookup of a MapNode key. -/
def cost_node (c : CostMap) (g : GridPosition) : CostVal :=
  (c.node_keys.lookup g).getD CostVal.infV

/-- Embeds `cost_so_far[adj] = total` (MapNode key). -/
def set_cost_node (c : CostMap) (g : GridPosition) (v : CostVal) : CostMap :=
  { c with node_keys := (g, v) :: c.node_keys }

/-- The mutable state of the `find_path` main loop. -/
structure PFState where
  queue : List PQEntry
  contains : List GridPosition
  previous : List (GridPosition × GridPosition)
  cost : CostMap

/-- One step of the inner `for adj in (...)` loop of `find_path`, for a
single walkable adjacent node `adj` of `current`:

* the generator filter `a.grid not in unexplored` consults the
  `_contains` set as it stands when `adj` is reached;
* `total = cost_so_far[current] + adj.costs[current] < cost_so_far[adj.grid]`
  is a Python bool;
* `if total < cost_so_far[adj]:` compares that bool numerically with the
  MapNode-keyed entry; when it fires, the predecessor link, the
  MapNode-keyed cost and the queue entry (with priority
  `total + heuristic(adj.grid, end)`) are recorded. -/
def relax (endg current : GridPosition) (st : PFState) (adj : GridPosition) :
    PFState :=
  if adj ∈ st.contains then st
  else
    let total : Bool :=
      num_lt (num_add (cost_val_num (cost_grid st.cost current))
                      (some (node_cost adj current)))
             (cost_val_num (cost_grid st.cost adj))
    if num_lt (some { num := if total then 1 else 0, den := 1 })
              (cost_val_num (cost_node st.cost adj)) then
      { queue := ((if total then 1 else 0, heuristic_sq adj endg), adj)
          :: st.queue,
        contains := adj :: st.contains,
        previous := (adj, current) :: st.previous,
        cost := set_cost_node st.cost adj (CostVal.boolV total) }
    else st

/-- The `while current_node in previous_nodes.keys()` walk of
`Pathfinder.reconstruct_path`, building the Python `path` list (goal node
first).  The `previous` links form a tree rooted at `start` (each key is
inserted exactly once, pointing to an already-expanded node), so the walk
terminates after at most `previous.length` lookups; the fuel argument only
bounds the recursion and is never exhausted when called with
`previous.length + 1`. -/
def path_nodes (previous : List (GridPosition × GridPosition)) :
    Nat → GridPosition → List GridPosition
  | 0, current => [current]
  | fuel + 1, current =>
    match previous.lookup current with
    | none => [current]
    | some p => current :: path_nodes previous fuel p

/-- Embeds `Pathfinder.reconstruct_path` composed with `nodes_list_to_path`:
reverse the walked node list and map nodes to their pixel positions. -/
def reconstruct_path (previous : List (GridPosition × GridPosition))
    (current : GridPosition) : List (Int × Int) :=
  ((path_nodes previous (previous.length + 1) current).reverse).map
    grid_to_position

/-- The `while unexplored:` main loop of `Pathfinder.find_path`.  Each
iteration pops the best entry; on reaching `end` it reconstructs the path,
otherwise it runs the inner loop over the walkable neighbours of the
popped node (looked up at the node's pixel position, as
`node.walkable_adjacent` does).  On emptiness it returns the empty path.
`none` signals fuel exhaustion, which never happens when the fuel exceeds
the number of in-bounds grids (each grid is pushed at most once). -/
def pf_loop (m : PyMap) (endg : GridPosition) :
    Nat → PFState → Option (List (Int × Int))
  | 0, _ => none
  | fuel + 1, st =>
    match heap_pop st.queue with
    | none => some []
    | some (e, rest) =>
      if e.2 = endg then some (reconstruct_path st.previous e.2)
      else
        pf_loop m endg fuel
          (List.foldl (relax endg e.2) { st with queue := rest }
            (m.walkable_adjacent (grid_to_position e.2).1
                                 (grid_to_position e.2).2))

/-- Embeds `Pathfinder.find_path(start, end)`: initial state from the
constructor calls (`PriorityQueue(start, heuristic(start, end))` and
`cost_so_far[start] = 0`), then the main loop. -/
def find_path (m : PyMap) (start endg : GridPosition) :
    Option (List (Int × Int)) :=
  pf_loop m endg (m.rows.toNat * m.columns.toNat + 1)
    { queue := [((0, heuristic_sq start endg), start)],
      contains := [start],
      previous := [],
      cost := { grid_keys := [(start, CostVal.intV 0)], node_keys := [] } }

/-! ## Concrete fixtures used by the theorems below -/

/-- A 10×10 map (600×600 pixels, 60×60 tiles) with no units and no
buildings: every node is walkable. -/
def map_ten : PyMap :=
  { width := 600, height := 600, grid_width := 60, grid_height := 60,
    unit_at := fun _ => none, building_at := fun _ => none }

/-- The path `find_path map_ten (0,0) (9,9)` produces: the ten tile
centers along the main diagonal. -/
def diagonal_path : List (Int × Int) :=
  [(30, 30), (90, 90), (150, 150), (210, 210), (270, 270),
   (330, 330), (390, 390), (450, 450), (510, 510), (570, 570)]

/-- A 2×2 map on which every node except (0, 0) is occupied by a unit:
every node adjacent to the tile (0, 0) is unwalkable. -/
def blocked_map : PyMap :=
  { width := 120, height := 120, grid_width := 60, grid_height := 60,
    unit_at := fun g => if g = (0, 0) then none else some 1,
    building_at := fun _ => none }

/-- A producer allowed to produce `tank`, with an empty queue and no
production running. -/
def tank_producer : IProducer :=
  { produced_objects := [PyClass.tank], production_queue := [],
    production_progress := 0, production_per_frame := 0,
    is_producing := false }

/-- A mission whose active participants are exactly the players with ids
1 and 2. -/
def two_player_mission : Mission :=
  { players := [1, 2], victory_points := fun _ => 0,
    required_victory_points := fun _ => 0, ended := false, winner := none }

/-- A mission in which player 1 needs 10 victory points and has none. -/
def threshold_mission : Mission :=
  { players := [1], victory_points := fun _ => 0,
    required_victory_points := fun _ => 10, ended := false, winner := none }

/-- A save manager whose table has one entry, name 1 ↦ path 10, with
nothing present on disk. -/
def one_save_manager : SaveManager :=
  { saved_games := [(1, 10)], disk := [] }

/-- An empty save store: no slot holds a record. -/
def empty_store : Nat → Option (PyShelf Nat) := fun _ => none

/-- A concrete game state over opaque objects coded as naturals. -/
def sample_game : PyGame Nat :=
  { map := 0, mission := 1, factions := [2], players := [3], units := [4],
    buildings := [5], permanent_units_groups := 6, fog_of_war := 7,
    mini_map := 8 }

/-! ## Helper lemmas -/

set_option maxHeartbeats 1000000 in
/-- Correctness of the symbolic priority comparison: `sqrt_add_lt`
decides the order of the exact real values `t + sqrt s` that the Python
floats `total + hypot(dx, dy)` denote. -/
lemma sqrt_add_lt_iff (t1 s1 t2 s2 : Nat) :
    sqrt_add_lt t1 s1 t2 s2 = true ↔
      (t1 : Real) + Real.sqrt s1 < (t2 : Real) + Real.sqrt s2 := by
  have ha : 0 ≤ Real.sqrt s1 := Real.sqrt_nonneg _
  have hb : 0 ≤ Real.sqrt s2 := Real.sqrt_nonneg _
  have ha2 : Real.sqrt s1 ^ 2 = (s1 : Real) := Real.sq_sqrt (by positivity)
  have hb2 : Real.sqrt s2 ^ 2 = (s2 : Real) := Real.sq_sqrt (by positivity)
  set a := Real.sqrt s1 with hadef
  set b := Real.sqrt s2 with hbdef
  rw [sqrt_add_lt]
  split_ifs with hd hL hM
  · -- 0 ≤ d and s1 - s2 - d^2 < 0: the comparison is true
    refine iff_of_true rfl ?_
    have hd' : (t1 : Real) ≤ (t2 : Real) := by exact_mod_cast Int.sub_nonneg.mp hd
    have hL' : (s1 : Real) < (s2 : Real) + ((t2 : Real) - (t1 : Real)) ^ 2 := by
      have hc : ((s1 : Int) : Real) - ((s2 : Int) : Real) -
          (((t2 : Int) : Real) - ((t1 : Int) : Real)) ^ 2 < 0 := by
        exact_mod_cast hL
      push_cast at hc
      linarith
    by_contra hc
    push_neg at hc
    have h1 : 0 ≤ a - ((t2 : Real) - (t1 : Real) + b) := by linarith
    have h2 : 0 ≤ a + ((t2 : Real) - (t1 : Real) + b) := by linarith
    have h3 := mul_nonneg h1 h2
    have h4 := mul_nonneg (by linarith : (0:Real) ≤ (t2 : Real) - (t1 : Real)) hb
    nlinarith [h3, h4, ha2, hb2, hL']
  · -- 0 ≤ d and s1 - s2 - d^2 ≥ 0: compare squares
    rw [decide_eq_true_eq]
    have hd' : (t1 : Real) ≤ (t2 : Real) := by exact_mod_cast Int.sub_nonneg.mp hd
    have hL' : (0 : Real) ≤ (s1 : Real) - (s2 : Real) -
        ((t2 : Real) - (t1 : Real)) ^ 2 := by
      have hc : (0 : Real) ≤ ((s1 : Int) : Real) - ((s2 : Int) : Real) -
          (((t2 : Int) : Real) - ((t1 : Int) : Real)) ^ 2 := by
        exact_mod_cast not_lt.mp hL
      push_cast at hc
      linarith
    constructor
    · intro hlt
      have hlt' : ((s1 : Real) - (s2 : Real) - ((t2 : Real) - (t1 : Real)) ^ 2) ^ 2 <
          4 * ((t2 : Real) - (t1 : Real)) ^ 2 * (s2 : Real) := by
        have hc : (((s1 : Int) : Real) - ((s2 : Int) : Real) -
            (((t2 : Int) : Real) - ((t1 : Int) : Real)) ^ 2) ^ 2 <
            4 * (((t2 : Int) : Real) - ((t1 : Int) : Real)) ^ 2 *
              ((s2 : Int) : Real) := by
          exact_mod_cast hlt
        push_cast at hc
        linarith
      by_contra hc
      push_neg at hc
      have hge : (t2 : Real) - (t1 : Real) + b ≤ a := by linarith
      have hsq : ((t2 : Real) - (t1 : Real) + b) ^ 2 ≤ a ^ 2 :=
        pow_le_pow_left₀ (by linarith) hge 2
      have h4 := mul_nonneg (by linarith : (0:Real) ≤ (t2 : Real) - (t1 : Real)) hb
      have hLr : 2 * ((t2 : Real) - (t1 : Real)) * b ≤
          (s1 : Real) - (s2 : Real) - ((t2 : Real) - (t1 : Real)) ^ 2 := by
        nlinarith [hsq, ha2, hb2]
      have hsq2 : (2 * ((t2 : Real) - (t1 : Real)) * b) ^ 2 ≤
          ((s1 : Real) - (s2 : Real) - ((t2 : Real) - (t1 : Real)) ^ 2) ^ 2 :=
        pow_le_pow_left₀ (by linarith) hLr 2
      nlinarith [hsq2, hb2, hlt']
    · intro hlt
      have h1 : a < (t2 : Real) - (t1 : Real) + b := by linarith
      have hsq : a ^ 2 < ((t2 : Real) - (t1 : Real) + b) ^ 2 :=
        pow_lt_pow_left₀ h1 ha (by norm_num)
      have hLr : (s1 : Real) - (s2 : Real) - ((t2 : Real) - (t1 : Real)) ^ 2 <
          2 * ((t2 : Real) - (t1 : Real)) * b := by
        nlinarith [hsq, ha2, hb2]
      have hsq2 : ((s1 : Real) - (s2 : Real) - ((t2 : Real) - (t1 : Real)) ^ 2) ^ 2 <
          (2 * ((t2 : Real) - (t1 : Real)) * b) ^ 2 :=
        pow_lt_pow_left₀ hLr hL' (by norm_num)
      have hfin : ((s1 : Real) - (s2 : Real) - ((t2 : Real) - (t1 : Real)) ^ 2) ^ 2 <
          4 * ((t2 : Real) - (t1 : Real)) ^ 2 * (s2 : Real) := by
        nlinarith [hsq2, hb2]
      have : (((s1 : Int) : Real) - ((s2 : Int) : Real) -
          (((t2 : Int) : Real) - ((t1 : Int) : Real)) ^ 2) ^ 2 <
          4 * (((t2 : Int) : Real) - ((t1 : Int) : Real)) ^ 2 *
            ((s2 : Int) : Real) := by
        push_cast
        linarith
      exact_mod_cast this
  · -- d < 0 and s2 - s1 - e^2 ≤ 0: the comparison is false
    refine iff_of_false (by simp) ?_
    have hd' : (t2 : Real) < (t1 : Real) := by
      have := not_le.mp hd
      have hx : (t2 : Int) < (t1 : Int) := by omega
      exact_mod_cast hx
    have hM' : (s2 : Real) ≤ (s1 : Real) + ((t1 : Real) - (t2 : Real)) ^ 2 := by
      have hc : ((s2 : Int) : Real) - ((s1 : Int) : Real) -
          (((t1 : Int) : Real) - ((t2 : Int) : Real)) ^ 2 ≤ 0 := by
        exact_mod_cast hM
      push_cast at hc
      linarith
    intro hc
    have hE : (0 : Real) < (t1 : Real) - (t2 : Real) := by linarith
    have h1 : a + ((t1 : Real) - (t2 : Real)) < b := by linarith
    have hsq : (a + ((t1 : Real) - (t2 : Real))) ^ 2 < b ^ 2 :=
      pow_lt_pow_left₀ h1 (by linarith) (by norm_num)
    have h4 := mul_nonneg ha hE.le
    nlinarith [hsq, ha2, hb2, hM', h4]
  · -- d < 0 and s2 - s1 - e^2 > 0: compare squares
    rw [decide_eq_true_eq]
    have hd' : (t2 : Real) < (t1 : Real) := by
      have hx : (t2 : Int) < (t1 : Int) := by
        have := not_le.mp hd
        omega
      exact_mod_cast hx
    have hM' : (0 : Real) < (s2 : Real) - (s1 : Real) -
        ((t1 : Real) - (t2 : Real)) ^ 2 := by
      have hc : (0 : Real) < ((s2 : Int) : Real) - ((s1 : Int) : Real) -
          (((t1 : Int) : Real) - ((t2 : Int) : Real)) ^ 2 := by
        exact_mod_cast not_le.mp hM
      push_cast at hc
      linarith
    have hE : (0 : Real) < (t1 : Real) - (t2 : Real) := by linarith
    constructor
    · intro hlt
      have hlt' : 4 * ((t1 : Real) - (t2 : Real)) ^ 2 * (s1 : Real) <
          ((s2 : Real) - (s1 : Real) - ((t1 : Real) - (t2 : Real)) ^ 2) ^ 2 := by
        have hc : 4 * (((t1 : Int) : Real) - ((t2 : Int) : Real)) ^ 2 *
            ((s1 : Int) : Real) <
            (((s2 : Int) : Real) - ((s1 : Int) : Real) -
              (((t1 : Int) : Real) - ((t2 : Int) : Real)) ^ 2) ^ 2 := by
          exact_mod_cast hlt
        push_cast at hc
        linarith
      by_contra hc
      push_neg at hc
      have h1 : b ≤ a + ((t1 : Real) - (t2 : Real)) := by linarith
      have hsq : b ^ 2 ≤ (a + ((t1 : Real) - (t2 : Real))) ^ 2 :=
        pow_le_pow_left₀ hb h1 2
      have hMr : (s2 : Real) - (s1 : Real) - ((t1 : Real) - (t2 : Real)) ^ 2 ≤
          2 * a * ((t1 : Real) - (t2 : Real)) := by
        nlinarith [hsq, ha2, hb2]
      have hsq2 : ((s2 : Real) - (s1 : Real) -
          ((t1 : Real) - (t2 : Real)) ^ 2) ^ 2 ≤
          (2 * a * ((t1 : Real) - (t2 : Real))) ^ 2 :=
        pow_le_pow_left₀ hM'.le hMr 2
      nlinarith [hsq2, ha2, hlt']
    · intro hlt
      have h1 : a + ((t1 : Real) - (t2 : Real)) < b := by linarith
      have hsq : (a + ((t1 : Real) - (t2 : Real))) ^ 2 < b ^ 2 :=
        pow_lt_pow_left₀ h1 (by linarith) (by norm_num)
      have h4 := mul_nonneg ha hE.le
      have hMr : 2 * a * ((t1 : Real) - (t2 : Real)) <
          (s2 : Real) - (s1 : Real) - ((t1 : Real) - (t2 : Real)) ^ 2 := by
        nlinarith [hsq, ha2, hb2]
      have hsq2 : (2 * a * ((t1 : Real) - (t2 : Real))) ^ 2 <
          ((s2 : Real) - (s1 : Real) - ((t1 : Real) - (t2 : Real)) ^ 2) ^ 2 :=
        pow_lt_pow_left₀ hMr (by linarith) (by norm_num)
      have hfin : 4 * ((t1 : Real) - (t2 : Real)) ^ 2 * (s1 : Real) <
          ((s2 : Real) - (s1 : Real) - ((t1 : Real) - (t2 : Real)) ^ 2) ^ 2 := by
        nlinarith [hsq2, ha2]
      have : 4 * (((t1 : Int) : Real) - ((t2 : Int) : Real)) ^ 2 *
          ((s1 : Int) : Real) <
          (((s2 : Int) : Real) - ((s1 : Int) : Real) -
            (((t1 : Int) : Real) - ((t2 : Int) : Real)) ^ 2) ^ 2 := by
        push_cast
        linarith
      exact_mod_cast this

/-- Correctness of the `PyFloat` comparison: for positive denominators,
`pf_lt` decides the order of the represented rational values. -/
lemma pf_lt_iff (x y : PyFloat) (hx : 0 < x.den) (hy : 0 < y.den) :
    pf_lt x y = true ↔ pf_val x < pf_val y := by
  rw [pf_lt, pf_val, pf_val, decide_eq_true_eq,
    div_lt_div_iff₀ (by exact_mod_cast hx) (by exact_mod_cast hy)]
  exact_mod_cast Iff.rfl

/-- Pointwise description of the nine shelve assignments of `save_game`
(the last assignment wins on key collisions; here all nine keys are
distinct). -/
lemma write_save_record_apply {V : Type} (g : PyGame V) (sh : PyShelf V)
    (k : Nat) :
    write_save_record g sh k =
      if k = 8 then some (SaveValue.single g.mini_map)
      else if k = 7 then some (SaveValue.single g.fog_of_war)
      else if k = 6 then some (SaveValue.single g.permanent_units_groups)
      else if k = 5 then some (SaveValue.listed g.buildings)
      else if k = 4 then some (SaveValue.listed g.units)
      else if k = 3 then some (SaveValue.listed g.players)
      else if k = 2 then some (SaveValue.listed g.factions)
      else if k = 1 then some (SaveValue.single g.mission)
      else if k = 0 then some (SaveValue.single g.map)
      else sh k := rfl

/-! ## Claim theorems -/

/-- C1: the claim asserts that for a producer whose allowed product list
contains X (with per-frame rate 25), `start_production(X)` enqueues X and
four `update_production` calls drive the progress 25→50→75→100 with
`finish_production` firing on the fourth.  The code does neither: the
guard compares `product.__class__` — the metaclass of the class object X —
against the allowed list of entity classes, so the call returns without
enqueuing anything, and four updates leave progress at 0 with an empty
queue and production off. -/
theorem claim_C1 :
    class_production_per_frame PyClass.tank = 25 ∧
    PyClass.tank ∈ tank_producer.produced_objects ∧
    start_production tank_producer PyClass.tank = tank_producer ∧
    (update_production^[4] (start_production tank_producer PyClass.tank)).production_queue = [] ∧
    (update_production^[4] (start_production tank_producer PyClass.tank)).production_progress = 0 ∧
    (update_production^[4] (start_production tank_producer PyClass.tank)).is_producing = false := by
  decide

/-- C2: the claim (and the spec) say the recorded movement cost is 1.4
for a diagonal neighbour and 1.0 for an orthogonal one.
`calculate_distances_between_nodes` stores the opposite: node (0,0) gets
cost 1 for its diagonal neighbour (1,1) and cost 1.4 for its orthogonal
neighbour (0,1). -/
theorem claim_C2 :
    is_diagonal_to_other (0, 0) (1, 1) = true ∧
    pf_val (node_cost (0, 0) (1, 1)) = 1 ∧
    is_diagonal_to_other (0, 0) (0, 1) = false ∧
    pf_val (node_cost (0, 0) (0, 1)) = 14 / 10 := by
  refine ⟨by decide, ?_, by decide, ?_⟩ <;>
    norm_num [node_cost, pf_val, is_diagonal_to_other]

/-- C7 (amended): `get_enemies` applied to the sum of two distinct powers
of two `2^i + 2^j` with `j < i` returns the pair (larger, smaller) —
provided `2^i` does not exceed the probe's start value `2^33`. -/
theorem claim_C7 :
    ∀ i : Nat, i < 34 → ∀ j : Nat, j < i →
      get_enemies (2 ^ i + 2 ^ j) = (2 ^ i, 2 ^ j) := by
  decide

/-- C7 witness: the spec's own example, 8 + 128 = 136. -/
theorem claim_C7_witness :
    7 < 34 ∧ 3 < 7 ∧ get_enemies (2 ^ 7 + 2 ^ 3) = (2 ^ 7, 2 ^ 3) :=
  ⟨by decide, by decide, claim_C7 7 (by decide) 3 (by decide)⟩

/-- C7 counterexample: for the distinct powers p = 2^34 and q = 1 the
claim as stated fails — the probe starts at 2^33, so the loop breaks
immediately and the pair (2^33, 2^33 + 1) is returned instead of
(2^34, 1). -/
theorem claim_C7_counterexample :
    get_enemies (2 ^ 34 + 2 ^ 0) ≠ (2 ^ 34, 2 ^ 0) ∧
    get_enemies (2 ^ 34 + 2 ^ 0) = (2 ^ 33, 2 ^ 33 + 1) := by
  decide

/-- C10: `delete_saved_game` on a name absent from the saved-games table
raises KeyError (the dict lookup precedes `os.remove` and KeyError is not
caught); when the table entry exists but the file is missing on disk, the
FileNotFoundError is swallowed and the manager — including the table
entry — is left unchanged. -/
theorem claim_C10 (st : SaveManager) (name : Nat) :
    (st.saved_games.lookup name = none →
      delete_saved_game st name = Except.error PyError.keyError) ∧
    (∀ path, st.saved_games.lookup name = some path → path ∉ st.disk →
      delete_saved_game st name = Except.ok st) := by
  constructor
  · intro h
    simp [delete_saved_game, delete_saved_game_try, h]
  · intro path hl hd
    simp [delete_saved_game, delete_saved_game_try, hl, os_remove, hd]

/-- C10 witness: on the concrete one-entry manager, deleting the unknown
name 2 raises KeyError and deleting name 1 (whose file path 10 is not on
disk) is a silent no-op. -/
theorem claim_C10_witness :
    delete_saved_game one_save_manager 2 = Except.error PyError.keyError ∧
    delete_saved_game one_save_manager 1 = Except.ok one_save_manager :=
  ⟨(claim_C10 one_save_manager 2).1 (by decide),
   (claim_C10 one_save_manager 1).2 10 (by decide) (by decide)⟩

/-- C3: on the all-walkable 10×10 map, `find_path((0,0),(9,9))` returns
the ten diagonal tile centers: a non-empty path starting at the center of
tile (0,0), ending at the center of tile (9,9), with 9 hops. -/
theorem claim_C3 :
    find_path map_ten (0, 0) (9, 9) = some diagonal_path ∧
    diagonal_path ≠ [] ∧
    diagonal_path.head? = some (grid_to_position (0, 0)) ∧
    diagonal_path.getLast? = some (grid_to_position (9, 9)) ∧
    diagonal_path.length - 1 ≤ 9 := by
  exact ⟨by decide, by decide, by decide, by decide, by decide⟩

/-- C6 counterexample: with participants exactly {1, 2}, eliminating
player 2 does NOT leave the participant set {1} — `check_for_last_survivor`
reaches the winner via `self.players.pop()`, which removes the survivor,
leaving the set empty (the mission does end with 1 as winner). -/
theorem claim_C6_counterexample :
    (eliminate_player two_player_mission 2).players = [] ∧
    (eliminate_player two_player_mission 2).players ≠ [1] ∧
    (eliminate_player two_player_mission 2).ended = true ∧
    (eliminate_player two_player_mission 2).winner = some 1 := by
  refine ⟨by decide, by decide, by decide, by decide⟩

/-- C6 (amended): eliminating one of exactly two participants ends the
mission with the other as winner, but leaves the participant set empty
(the sole survivor is popped out of the set when the mission ends). -/
theorem claim_C6 (m : Mission) (a b : Nat) (hab : a ≠ b)
    (hp : m.players = [a, b]) :
    (eliminate_player m b).players = [] ∧
    (eliminate_player m b).ended = true ∧
    (eliminate_player m b).winner = some a := by
  have hd : set_discard m.players b = [a] := by
    simp [set_discard, hp, hab]
  simp [eliminate_player, hd, check_for_last_survivor, end_mission]

/-- C6 witness: the amended claim at the concrete two-player mission. -/
theorem claim_C6_witness :
    (1 : Nat) ≠ 2 ∧ two_player_mission.players = [1, 2] ∧
    (eliminate_player two_player_mission 2).players = [] ∧
    (eliminate_player two_player_mission 2).ended = true ∧
    (eliminate_player two_player_mission 2).winner = some 1 := by
  have h := claim_C6 two_player_mission 1 2 (by decide) (by decide)
  exact ⟨by decide, by decide, h.1, h.2.1, h.2.2⟩

/-- C5: `add_victory_points` increments the player's counter and ends the
mission (with that player as winner) exactly when the new cumulative total
reaches or exceeds a strictly positive required threshold; in the
spec's scenario (threshold 10, starting from 0), adding 6 leaves the
mission unended and a further 5 ends it with the player as winner. -/
theorem claim_C5 (m : Mission) (p : Nat) (he : m.ended = false) :
    (∀ pts : Int,
      ((add_victory_points m p pts).ended = true ↔
        (m.required_victory_points p ≤ m.victory_points p + pts ∧
          0 < m.required_victory_points p)) ∧
      ((add_victory_points m p pts).ended = true →
        (add_victory_points m p pts).winner = some p)) ∧
    (m.victory_points p = 0 → m.required_victory_points p = 10 →
      (add_victory_points m p 6).ended = false ∧
      (add_victory_points (add_victory_points m p 6) p 5).ended = true ∧
      (add_victory_points (add_victory_points m p 6) p 5).winner = some p) := by
  have key_ended : ∀ (mm : Mission) (pts : Int),
      (add_victory_points mm p pts).ended =
        if mm.required_victory_points p ≤ mm.victory_points p + pts ∧
            0 < mm.required_victory_points p then true else mm.ended := by
    intro mm pts
    simp only [add_victory_points, check_victory_points, end_mission,
      eq_self_iff_true, if_true]
    split_ifs with h1
    · rfl
    · rfl
  have key_winner : ∀ (mm : Mission) (pts : Int),
      (add_victory_points mm p pts).winner =
        if mm.required_victory_points p ≤ mm.victory_points p + pts ∧
            0 < mm.required_victory_points p then some p else mm.winner := by
    intro mm pts
    simp only [add_victory_points, check_victory_points, end_mission,
      eq_self_iff_true, if_true]
    split_ifs with h1
    · rfl
    · rfl
  have key_vp : ∀ (mm : Mission) (pts : Int),
      (add_victory_points mm p pts).victory_points p =
        mm.victory_points p + pts := by
    intro mm pts
    simp only [add_victory_points, check_victory_points, end_mission]
    split_ifs <;> simp
  have key_req : ∀ (mm : Mission) (pts : Int),
      (add_victory_points mm p pts).required_victory_points p =
        mm.required_victory_points p := by
    intro mm pts
    simp only [add_victory_points, check_victory_points, end_mission]
    split_ifs <;> rfl
  constructor
  · intro pts
    constructor
    · rw [key_ended m pts]
      split_ifs with h
      · simpa using h
      · simpa [he] using h
    · intro hc
      rw [key_winner m pts]
      rw [key_ended m pts] at hc
      split_ifs with h
      · rfl
      · rw [if_neg h] at hc
        rw [he] at hc
        exact absurd hc (by decide)
  · intro h0 hr
    have hc6 : ¬(m.required_victory_points p ≤ m.victory_points p + 6 ∧
        0 < m.required_victory_points p) := by
      rw [h0, hr]
      omega
    refine ⟨by rw [key_ended m 6, if_neg hc6, he], ?_, ?_⟩
    · rw [key_ended (add_victory_points m p 6) 5, if_pos]
      rw [key_req m 6, key_vp m 6, h0, hr]
      omega
    · rw [key_winner (add_victory_points m p 6) 5, if_pos]
      rw [key_req m 6, key_vp m 6, h0, hr]
      omega
/-- C5 witness: the scenario at the concrete threshold-10 mission. -/
theorem claim_C5_witness :
    threshold_mission.ended = false ∧
    (add_victory_points threshold_mission 1 6).ended = false ∧
    (add_victory_points (add_victory_points threshold_mission 1 6) 1 5).ended
      = true ∧
    (add_victory_points (add_victory_points threshold_mission 1 6) 1 5).winner
      = some 1 := by
  have h := (claim_C5 threshold_mission 1 rfl).2 rfl rfl
  exact ⟨rfl, h.1, h.2.1, h.2.2⟩

/-- C4: for any map and any in-bounds start tile distinct from the goal,
if every node adjacent to the start tile is unwalkable then `find_path`
returns the empty path (the frontier is exhausted after expanding the
start node) and no exception is raised — the embedding is total. -/
theorem claim_C4 (m : PyMap) (s e : GridPosition)
    (hs : 0 ≤ s.1 ∧ s.1 < m.columns ∧ 0 ≤ s.2 ∧ s.2 < m.rows)
    (hne : s ≠ e)
    (hblocked : ∀ g ∈ m.adjacent_nodes (grid_to_position s).1
      (grid_to_position s).2, m.walkable g = false) :
    find_path m s e = some [] := by
  have hfilter : m.walkable_adjacent (grid_to_position s).1
      (grid_to_position s).2 = [] := by
    rw [PyMap.walkable_adjacent, List.filter_eq_nil_iff]
    intro a ha
    simp [hblocked a ha]
  obtain ⟨k, hk⟩ : ∃ k, m.rows.toNat * m.columns.toNat = k + 1 := by
    refine ⟨m.rows.toNat * m.columns.toNat - 1, ?_⟩
    have hc : 0 < m.columns := by omega
    have hr : 0 < m.rows := by omega
    have hc1 : 0 < m.columns.toNat := by omega
    have hr1 : 0 < m.rows.toNat := by omega
    have := Nat.mul_pos hr1 hc1
    omega
  rw [find_path, hk]
  simp only [pf_loop, heap_pop, select_min]
  rw [if_neg hne]
  rw [hfilter]
  simp only [List.foldl]

/-- C4 witness: the 2×2 map in which every neighbour of (0,0) holds a
unit. -/
theorem claim_C4_witness :
    ((0 : Int) ≤ 0 ∧ (0 : Int) < blocked_map.columns ∧ (0 : Int) ≤ 0 ∧
      (0 : Int) < blocked_map.rows) ∧
    ((0, 0) : GridPosition) ≠ (1, 1) ∧
    (∀ g ∈ blocked_map.adjacent_nodes (grid_to_position (0, 0)).1
      (grid_to_position (0, 0)).2, blocked_map.walkable g = false) ∧
    find_path blocked_map (0, 0) (1, 1) = some [] := by
  refine ⟨by decide, by decide, by decide, ?_⟩
  exact claim_C4 blocked_map (0, 0) (1, 1) (by decide) (by decide) (by decide)

/-- C8: for an in-bounds pixel position, grid-to-position of
position-to-grid is the center of the tile containing it (the tile t whose
60-pixel span covers the point), and `normalize_position` is idempotent. -/
theorem claim_C8 (m : PyMap) (x y : Int) (hb : m.on_map_area x y = true)
    (t : GridPosition)
    (ht : t.1 * TILE_WIDTH ≤ x ∧ x < t.1 * TILE_WIDTH + TILE_WIDTH ∧
          t.2 * TILE_HEIGHT ≤ y ∧ y < t.2 * TILE_HEIGHT + TILE_HEIGHT) :
    grid_to_position (position_to_grid x y) = grid_to_position t ∧
    normalize_position (normalize_position x y).1 (normalize_position x y).2 =
      normalize_position x y := by
  have hfd : ∀ a : Int, Int.fdiv a 60 = a / 60 := fun a =>
    Int.fdiv_eq_ediv a (by norm_num)
  obtain ⟨h1, h2, h3, h4⟩ := ht
  simp only [TILE_WIDTH, TILE_HEIGHT] at h1 h2 h3 h4
  constructor
  · simp only [position_to_grid, grid_to_position, TILE_WIDTH, TILE_HEIGHT,
      hfd]
    have e1 : x / 60 = t.1 := by omega
    have e2 : y / 60 = t.2 := by omega
    rw [e1, e2]
  · simp only [normalize_position, position_to_grid, grid_to_position,
      TILE_WIDTH, TILE_HEIGHT, hfd]
    have e1 : (x / 60 * 60 + Int.fdiv 60 2) / 60 = x / 60 := by
      rw [show Int.fdiv (60 : Int) 2 = 30 from rfl]
      omega
    have e2 : (y / 60 * 60 + Int.fdiv 60 2) / 60 = y / 60 := by
      rw [show Int.fdiv (60 : Int) 2 = 30 from rfl]
      omega
    rw [e1, e2]

/-- C8 witness: pixel (75, 130) lies in tile (1, 2) of the 10×10 map. -/
theorem claim_C8_witness :
    map_ten.on_map_area 75 130 = true ∧
    ((1 : Int) * TILE_WIDTH ≤ 75 ∧ (75 : Int) < 1 * TILE_WIDTH + TILE_WIDTH ∧
      (2 : Int) * TILE_HEIGHT ≤ 130 ∧
      (130 : Int) < 2 * TILE_HEIGHT + TILE_HEIGHT) ∧
    grid_to_position (position_to_grid 75 130) = grid_to_position (1, 2) ∧
    normalize_position (normalize_position 75 130).1
      (normalize_position 75 130).2 = normalize_position 75 130 := by
  refine ⟨by decide, ⟨by decide, by decide, by decide, by decide⟩, ?_⟩
  exact claim_C8 map_ten 75 130 (by decide) (1, 2)
    ⟨by decide, by decide, by decide, by decide⟩

/-- C9: `save_game` stores at the slot a record whose key set is exactly
the nine documented keys, and the stored record does not depend on a
previous record at that slot (any record ever written there by `save_game`
has exactly the nine keys, which the nine assignments all overwrite) —
an overwrite. -/
theorem claim_C9 {V : Type} (store : Nat → Option (PyShelf V)) (slot : Nat)
    (g : PyGame V)
    (hprev : ∀ sh, store slot = some sh →
      ∀ k, (sh k).isSome = true → k ∈ nine_keys) :
    save_game store slot g slot =
      some (write_save_record g ((store slot).getD empty_shelf)) ∧
    (∀ k, ((write_save_record g ((store slot).getD empty_shelf)) k).isSome =
        true ↔ k ∈ nine_keys) ∧
    write_save_record g ((store slot).getD empty_shelf) =
      write_save_record g empty_shelf := by
  have hnone : ∀ k, k ∉ nine_keys →
      ((store slot).getD empty_shelf) k = none := by
    intro k hk
    cases hsl : store slot with
    | none => rfl
    | some sh =>
      simp only [Option.getD]
      cases hv : sh k with
      | none => rfl
      | some v => exact absurd (hprev sh hsl k (by simp [hv])) hk
  refine ⟨?_, ?_, ?_⟩
  · simp only [save_game, if_pos rfl]
    cases store slot <;> rfl
  · intro k
    rw [write_save_record_apply]
    split_ifs with h8 h7 h6 h5 h4 h3 h2 h1 h0
    · simp [nine_keys, h8]
    · simp [nine_keys, h7]
    · simp [nine_keys, h6]
    · simp [nine_keys, h5]
    · simp [nine_keys, h4]
    · simp [nine_keys, h3]
    · simp [nine_keys, h2]
    · simp [nine_keys, h1]
    · simp [nine_keys, h0]
    · rw [hnone k (by simp [nine_keys]; omega)]
      simp [nine_keys]
      omega
  · funext k
    by_cases hk : k ∈ nine_keys
    · have hcase : k = 0 ∨ k = 1 ∨ k = 2 ∨ k = 3 ∨ k = 4 ∨ k = 5 ∨ k = 6 ∨
          k = 7 ∨ k = 8 := by simpa [nine_keys] using hk
      rcases hcase with rfl | rfl | rfl | rfl | rfl | rfl | rfl | rfl | rfl <;>
        rfl
    · have hval := hnone k hk
      have hne : k ≠ 8 ∧ k ≠ 7 ∧ k ≠ 6 ∧ k ≠ 5 ∧ k ≠ 4 ∧ k ≠ 3 ∧ k ≠ 2 ∧
          k ≠ 1 ∧ k ≠ 0 := by
        simp only [nine_keys, List.mem_cons, List.not_mem_nil, or_false] at hk
        omega
      obtain ⟨h8, h7, h6, h5, h4, h3, h2, h1, h0⟩ := hne
      rw [write_save_record_apply, write_save_record_apply]
      simp only [if_neg h8, if_neg h7, if_neg h6, if_neg h5, if_neg h4,
        if_neg h3, if_neg h2, if_neg h1, if_neg h0]
      rw [hval]
      rfl

/-- C9 witness: saving a concrete game into an empty store. -/
theorem claim_C9_witness :
    save_game empty_store 0 sample_game 0 =
      some (write_save_record sample_game
        ((empty_store 0).getD empty_shelf)) ∧
    (∀ k, ((write_save_record sample_game
        ((empty_store 0).getD empty_shelf)) k).isSome = true ↔
      k ∈ nine_keys) ∧
    write_save_record sample_game ((empty_store 0).getD empty_shelf) =
      write_save_record sample_game empty_shelf :=
  claim_C9 empty_store 0 sample_game
    (fun sh h => absurd h (by simp [empty_store]))
